import Mathlib

/-!
Shallow embedding of arch/arm/mach-msm/cpufreq.c (MSM cpufreq driver):
the frequency-transition dispatcher.  Pure C functions become Lean
functions; per-cpu mutable state (`cpufreq_suspend`, `cpufreq_work`)
becomes explicit state passing; the observable actions of a call
(mutex operations, notifications, the clock-set primitive, scheduler
changes, workqueue dispatch) are recorded as an event trace.
-/

/-! ## Error and scheduling constants (Linux kernel interface values) -/

/-- Kernel errno: invalid argument. -/
def EINVAL : Int := 22

/-- Kernel errno: bad address; the driver uses it for the suspended-device
failure (the spec calls this DeviceSuspended). -/
def EFAULT : Int := 14

/-- Kernel errno: no such device (the spec calls this CoreInactive at target
time and NoTableAvailable at init time). -/
def ENODEV : Int := 19

/-- Kernel errno: out of memory. -/
def ENOMEM : Int := 12

/-- Scheduling class constant SCHED_FIFO from the kernel scheduler interface. -/
def SCHED_FIFO : Int := 1

/-- Maximal real-time priority bound from the kernel scheduler interface. -/
def MAX_RT_PRIO : Int := 100

/-- Return value of a hotplug notifier meaning the event was handled. -/
def NOTIFY_OK : Int := 1

/-- Nanoseconds per microsecond, used for the transition latency. -/
def NSEC_PER_USEC : Nat := 1000

/-! ## Observable events of a call -/

/-- Observable actions performed by the driver during one call, in program
order: per-core suspend-mutex operations, writes of the per-core suspended
flag, pre/post transition notifications (old, new, cpu), invocations of the
clock-set primitive acpuclk_set_rate (cpu, freq), scheduler class/priority
changes of the calling task, and the workqueue dispatch steps of the remote
path. -/
inductive Event where
  | lockMutex : Nat → Event
  | unlockMutex : Nat → Event
  | setSuspended : Nat → Bool → Event
  | notifyPre : Nat → Nat → Nat → Event
  | notifyPost : Nat → Nat → Nat → Event
  | clockSet : Nat → Nat → Event
  | setSched : Int → Int → Event
  | cancelWorkSync : Nat → Event
  | initCompletion : Nat → Event
  | queueWorkOn : Nat → Event
  | completeSignal : Nat → Event
  | waitCompletion : Nat → Event
deriving DecidableEq, Repr

/-- Tests whether an event is an invocation of the clock-set primitive. -/
def isClockSet : Event → Bool
  | Event.clockSet _ _ => true
  | _ => false

/-- Tests whether an event is a scheduler class/priority change. -/
def isSetSched : Event → Bool
  | Event.setSched _ _ => true
  | _ => false

/-- Tests whether an event is a pre-change notification or a clock-set call
(the two events whose relative order claim C5 is about). -/
def isPreOrClock : Event → Bool
  | Event.notifyPre _ _ _ => true
  | Event.clockSet _ _ => true
  | _ => false

/-- Tests whether an event is an acquisition of a per-core suspend mutex. -/
def isLockMutex : Event → Bool
  | Event.lockMutex _ => true
  | _ => false

/-- Tests whether an event is a write of a per-core suspended flag. -/
def isSetSuspended : Event → Bool
  | Event.setSuspended _ _ => true
  | _ => false

/-! ## Frequency table resolution -/

/-- Rounding direction for table resolution.  roundDown selects the nearest
entry at or below the target (Linux relation CPUFREQ_RELATION_H), roundUp the
nearest entry at or above it (CPUFREQ_RELATION_L). -/
inductive FreqRelation where
  | roundDown : FreqRelation
  | roundUp : FreqRelation
deriving DecidableEq, Repr

/-- Modelled from the spec: the Frequency Table Resolver
(cpufreq_frequency_table_target, not under src/): "round down to the nearest
entry ≤ target, or round up to the nearest entry ≥ target", failing when no
entry satisfies the relation. -/
def cpufreq_table_resolve (table : List Nat) (target : Nat) :
    FreqRelation → Option Nat
  | FreqRelation.roundDown => (table.filter (fun f => decide (f ≤ target))).max?
  | FreqRelation.roundUp => (table.filter (fun f => decide (target ≤ f))).min?

/-- Relation constant CPUFREQ_RELATION_H of the Linux cpufreq interface:
highest frequency below or at target, i.e. round down. -/
def CPUFREQ_RELATION_H : FreqRelation := FreqRelation.roundDown

/-- Relation constant CPUFREQ_RELATION_L of the Linux cpufreq interface:
lowest frequency at or above target, i.e. round up. -/
def CPUFREQ_RELATION_L : FreqRelation := FreqRelation.roundUp

/-! ## The Transition Executor: set_cpu_freq -/

/-- Scheduling state of a task: scheduling class (policy) and real-time
priority, as read and written through sched_setscheduler_nocheck. -/
structure SchedState where
  policy : Int
  rt_priority : Int
deriving DecidableEq, Repr

/-- Result of one run of set_cpu_freq: the return value of the clock-set
primitive, the calling task's scheduling state on return, and the event
trace of the run. -/
structure ExecResult where
  ret : Int
  task : SchedState
  events : List Event
deriving DecidableEq, Repr

/-- Embedding of set_cpu_freq.  Arguments: the opaque clock-set primitive
acpuclk_set_rate (cpu → freq → result), policy->cur (the old frequency),
policy->cpu, the new frequency, and the calling task's scheduling state.
Mirrors the C line by line: conditional elevation to SCHED_FIFO at
MAX_RT_PRIO-1 when raising the frequency and not already SCHED_FIFO,
pre-change notification, clock-set, post-change notification on success,
conditional restoration of the saved class/priority. -/
def set_cpu_freq (acpuclk_set_rate : Nat → Nat → Int) (cur cpu new_freq : Nat)
    (task : SchedState) : ExecResult :=
  let elev : Bool := decide (cur < new_freq) && decide (task.policy ≠ SCHED_FIFO)
  let saved_sched_policy : Int := if elev then task.policy else -EINVAL
  let saved_sched_rt_prio : Int := if elev then task.rt_priority else -EINVAL
  let task1 : SchedState :=
    if elev then { policy := SCHED_FIFO, rt_priority := MAX_RT_PRIO - 1 } else task
  let ev1 : List Event :=
    if elev then [Event.setSched SCHED_FIFO ( MAX_RT_PRIO - 1)] else []
  let ret : Int := acpuclk_set_rate cpu new_freq
  let ev2 : List Event :=
    ev1 ++ [Event.notifyPre cur new_freq cpu, Event.clockSet cpu new_freq]
  let ev3 : List Event :=
    if ret = 0 then ev2 ++ [Event.notifyPost cur new_freq cpu] else ev2
  let restore : Bool := decide (cur < new_freq) && decide (0 ≤ saved_sched_policy)
  let task2 : SchedState :=
    if restore then { policy := saved_sched_policy, rt_priority := saved_sched_rt_prio }
    else task1
  let ev4 : List Event :=
    if restore then ev3 ++ [Event.setSched saved_sched_policy saved_sched_rt_prio]
    else ev3
  { ret := ret, task := task2, events := ev4 }






/-! ## Per-core state and the Cross-Core Dispatcher: msm_cpufreq_target -/

/-- Per-core mutable state touched by one target call: the suspended flag of
cpufreq_suspend and the frequency/status slots of the cpufreq_work
descriptor.  (The mutex itself is represented by lock/unlock events, the
completion by the dispatch events.) -/
structure CpuState where
  device_suspended : Bool
  work_frequency : Nat
  work_status : Int
deriving DecidableEq, Repr

/-- Pointwise update of the per-core state array at one core. -/
def updState (st : Nat → CpuState) (c : Nat) (v : CpuState) : Nat → CpuState :=
  fun n => if n = c then v else st n

/-- Caller-visible fields of a cpufreq_policy used by this driver. -/
structure Policy where
  cpu : Nat
  cur : Nat
deriving DecidableEq, Repr

/-- The calling task: scheduling state plus its cpu affinity
(current->cpus_allowed), modelled as the list of allowed core ids. -/
structure TaskState where
  sched : SchedState
  cpus_allowed : List Nat
deriving DecidableEq, Repr

/-- Tests whether an affinity mask, viewed as a set of core ids, equals the
singleton containing exactly cpu.  This is the C sequence cpumask_clear,
cpumask_set_cpu(policy->cpu), cpumask_equal(mask, &current->cpus_allowed). -/
def singletonAffinity (cpus : List Nat) (cpu : Nat) : Bool :=
  cpus.contains cpu && cpus.all (fun c => decide (c = cpu))

/-- External collaborators of msm_cpufreq_target: core activity query,
the outcome of the temporary cpumask allocation, the frequency table for
the core, the clock-set primitive, and the scheduling state of the per-core
worker thread that runs remotely dispatched work items. -/
structure TargetEnv where
  cpu_active : Nat → Bool
  alloc_ok : Bool
  table : Option (List Nat)
  acpuclk_set_rate : Nat → Nat → Int
  workerTask : Nat → SchedState

/-- Result of one call to msm_cpufreq_target: return value, per-core state
on return, the calling task's scheduling state on return, and the event
trace. -/
structure TargetResult where
  ret : Int
  st : Nat → CpuState
  task : SchedState
  events : List Event

/-- Embedding of msm_cpufreq_target.  Mirrors the C control flow: fail with
-ENODEV when the core is not active, with -ENOMEM when the cpumask
allocation fails; take the per-core suspend mutex; fail with -EFAULT when
the core is suspended; resolve the target against the table (failure:
-EINVAL); fill the work descriptor (status preset to -ENODEV); run the
Transition Executor inline when the caller's affinity is exactly the target
core, else cancel any outstanding work item, reset the completion, queue
the work item on the target core, wait for completion, and return the
status the work item left in the descriptor.  The remote work item runs
set_cpu_freq under the worker thread's scheduling state. -/
def msm_cpufreq_target (env : TargetEnv) (pol : Policy) (target_freq : Nat)
    (relation : FreqRelation) (task : TaskState) (st : Nat → CpuState) :
    TargetResult :=
  if env.cpu_active pol.cpu = false then
    { ret := -ENODEV, st := st, task := task.sched, events := [] }
  else if env.alloc_ok = false then
    { ret := -ENOMEM, st := st, task := task.sched, events := [] }
  else if (st pol.cpu).device_suspended then
    { ret := -EFAULT, st := st, task := task.sched,
      events := [Event.lockMutex pol.cpu, Event.unlockMutex pol.cpu] }
  else
    match env.table.bind (fun t => cpufreq_table_resolve t target_freq relation) with
    | none =>
      { ret := -EINVAL, st := st, task := task.sched,
        events := [Event.lockMutex pol.cpu, Event.unlockMutex pol.cpu] }
    | some freq =>
      let st1 := updState st pol.cpu
        { device_suspended := (st pol.cpu).device_suspended,
          work_frequency := freq, work_status := -ENODEV }
      if singletonAffinity task.cpus_allowed pol.cpu then
        let r := set_cpu_freq env.acpuclk_set_rate pol.cur pol.cpu freq task.sched
        { ret := r.ret, st := st1, task := r.task,
          events := Event.lockMutex pol.cpu :: r.events ++ [Event.unlockMutex pol.cpu] }
      else
        let r := set_cpu_freq env.acpuclk_set_rate pol.cur pol.cpu freq
          (env.workerTask pol.cpu)
        let st2 := updState st1 pol.cpu
          { device_suspended := (st1 pol.cpu).device_suspended,
            work_frequency := freq, work_status := r.ret }
        { ret := (st2 pol.cpu).work_status, st := st2, task := task.sched,
          events := Event.lockMutex pol.cpu ::
            Event.cancelWorkSync pol.cpu :: Event.initCompletion pol.cpu ::
            Event.queueWorkOn pol.cpu :: r.events ++
            [Event.completeSignal pol.cpu, Event.waitCompletion pol.cpu,
             Event.unlockMutex pol.cpu] }

/-! ## The Initializer: msm_cpufreq_init -/

/-- External collaborators of msm_cpufreq_init: the frequency table for the
core, the clock-get and clock-set primitives, the reported clock switch
time, and the coupled-core platform query. -/
structure InitEnv where
  table : Option (List Nat)
  acpuclk_get_rate : Nat → Nat
  acpuclk_set_rate : Nat → Nat → Int
  acpuclk_get_switch_time : Nat
  cpu_is_msm8625 : Bool

/-- Result of msm_cpufreq_init: return value, the recorded current frequency
(policy->cur, none when init failed before setting it), the transition
latency, whether the policy affinity was widened to all cores, and the
event trace (a clock-set event when normalization ran). -/
structure InitResult where
  ret : Int
  cur : Option Nat
  transition_latency : Option Nat
  cpus_all : Bool
  events : List Event
deriving DecidableEq, Repr

/-- Embedding of msm_cpufreq_init.  Mirrors the C: fail with -ENODEV when no
table exists; widen the policy mask on msm8625; read the current hardware
frequency; resolve it with CPUFREQ_RELATION_H and, only when that fails,
CPUFREQ_RELATION_L, failing with -EINVAL when both fail; when the resolved
frequency differs from the hardware one, issue a normalizing clock-set and
propagate its failure; record the resulting frequency as policy->cur and
compute the transition latency.  (Bound adjustment under the optional
CONFIG_MSM_CPU_FREQ_SET_MIN_MAX is compiled out; the per-core work and
completion initialization at the end has no observable effect modelled
here.) -/
def msm_cpufreq_init (env : InitEnv) (cpu : Nat) : InitResult :=
  match env.table with
  | none =>
    { ret := -ENODEV, cur := none, transition_latency := none,
      cpus_all := false, events := [] }
  | some t =>
    let cpus_all := env.cpu_is_msm8625
    let cur_freq := env.acpuclk_get_rate cpu
    match (cpufreq_table_resolve t cur_freq CPUFREQ_RELATION_H).orElse
        (fun _ => cpufreq_table_resolve t cur_freq CPUFREQ_RELATION_L) with
    | none =>
      { ret := -EINVAL, cur := none, transition_latency := none,
        cpus_all := cpus_all, events := [] }
    | some f =>
      if cur_freq ≠ f then
        let r := env.acpuclk_set_rate cpu f
        if r ≠ 0 then
          { ret := r, cur := none, transition_latency := none,
            cpus_all := cpus_all, events := [Event.clockSet cpu f] }
        else
          { ret := 0, cur := some f,
            transition_latency := some (env.acpuclk_get_switch_time * NSEC_PER_USEC),
            cpus_all := cpus_all, events := [Event.clockSet cpu f] }
      else
        { ret := 0, cur := some cur_freq,
          transition_latency := some (env.acpuclk_get_switch_time * NSEC_PER_USEC),
          cpus_all := cpus_all, events := [] }

/-! ## The Lifecycle Controller: hotplug callback and suspend/resume -/

/-- Hotplug action code CPU_ONLINE of the Linux hotplug interface.  Only the
pairwise distinctness of these action values matters to the driver. -/
def CPU_ONLINE : Nat := 0x0002

/-- Hotplug action code CPU_DOWN_PREPARE. -/
def CPU_DOWN_PREPARE : Nat := 0x0005

/-- Hotplug action code CPU_DOWN_FAILED. -/
def CPU_DOWN_FAILED : Nat := 0x0006

/-- Hotplug action code CPU_ONLINE_FROZEN (CPU_ONLINE with the frozen flag). -/
def CPU_ONLINE_FROZEN : Nat := 0x0012

/-- Hotplug action code CPU_DOWN_PREPARE_FROZEN. -/
def CPU_DOWN_PREPARE_FROZEN : Nat := 0x0015

/-- Hotplug action code CPU_DOWN_FAILED_FROZEN. -/
def CPU_DOWN_FAILED_FROZEN : Nat := 0x0016

/-- Result of a Lifecycle Controller entry point: the per-core suspended
flags on return, the return value, and the event trace. -/
structure LifecycleResult where
  st : Nat → Bool
  ret : Int
  events : List Event

/-- Pointwise update of the suspended-flag array at one core. -/
def updFlag (st : Nat → Bool) (c : Nat) (v : Bool) : Nat → Bool :=
  fun n => if n = c then v else st n

/-- Embedding of msm_cpufreq_cpu_callback.  Mirrors the C switch: on
CPU_ONLINE and CPU_DOWN_FAILED (and frozen variants) clear the core's
suspended flag without taking the mutex; on CPU_DOWN_PREPARE (and frozen)
take the core's suspend mutex, set the flag, release; on any other action
do nothing.  Always returns NOTIFY_OK. -/
def msm_cpufreq_cpu_callback (action : Nat) (cpu : Nat) (st : Nat → Bool) :
    LifecycleResult :=
  if action = CPU_ONLINE ∨ action = CPU_ONLINE_FROZEN then
    { st := updFlag st cpu false, ret := NOTIFY_OK,
      events := [Event.setSuspended cpu false] }
  else if action = CPU_DOWN_PREPARE ∨ action = CPU_DOWN_PREPARE_FROZEN then
    { st := updFlag st cpu true, ret := NOTIFY_OK,
      events := [Event.lockMutex cpu, Event.setSuspended cpu true,
                 Event.unlockMutex cpu] }
  else if action = CPU_DOWN_FAILED ∨ action = CPU_DOWN_FAILED_FROZEN then
    { st := updFlag st cpu false, ret := NOTIFY_OK,
      events := [Event.setSuspended cpu false] }
  else
    { st := st, ret := NOTIFY_OK, events := [] }

/-- Embedding of msm_cpufreq_suspend: for each possible core (0..nr-1), set
its suspended flag, without taking any mutex; return 0. -/
def msm_cpufreq_suspend (nr : Nat) (st : Nat → Bool) : LifecycleResult :=
  { st := fun c => if c < nr then true else st c,
    ret := 0,
    events := (List.range nr).map (fun c => Event.setSuspended c true) }

/-- Embedding of msm_cpufreq_resume: for each possible core (0..nr-1), clear
its suspended flag, without taking any mutex; return 0. -/
def msm_cpufreq_resume (nr : Nat) (st : Nat → Bool) : LifecycleResult :=
  { st := fun c => if c < nr then false else st c,
    ret := 0,
    events := (List.range nr).map (fun c => Event.setSuspended c false) }

/-! ## Claims about the Transition Executor -/

/-- C5: in every call to set_cpu_freq, the pre-change notification is
emitted before the clock-set primitive is invoked (among
notification/clock-set events the trace is exactly pre-change then
clock-set), the post-change notification is emitted iff the clock-set
primitive returned success, and the value returned equals the clock-set
primitive's result. -/
theorem C5_executor_notifications (acpu : Nat → Nat → Int)
    (cur cpu new_freq : Nat) (task : SchedState) :
    (set_cpu_freq acpu cur cpu new_freq task).events.filter isPreOrClock =
      [Event.notifyPre cur new_freq cpu, Event.clockSet cpu new_freq] ∧
    (Event.notifyPost cur new_freq cpu ∈
        (set_cpu_freq acpu cur cpu new_freq task).events ↔
      acpu cpu new_freq = 0) ∧
    (set_cpu_freq acpu cur cpu new_freq task).ret = acpu cpu new_freq := by
  unfold set_cpu_freq
  simp only [SCHED_FIFO, EINVAL, MAX_RT_PRIO]
  by_cases h1 : cur < new_freq <;> by_cases h2 : task.policy = 1 <;>
    by_cases h3 : acpu cpu new_freq = 0 <;>
    by_cases h4 : (0 : Int) ≤ task.policy <;>
    simp [h1, h2, h3, h4, isPreOrClock]

/-- C2 counterexample: with old frequency 600, new frequency 900 (an upward
transition) and a calling task already in class SCHED_FIFO, set_cpu_freq
performs no scheduler change at all, so the priority is not elevated even
though the new frequency is greater than the old one. -/
theorem C2_counterexample :
    600 < 900 ∧
    (set_cpu_freq (fun _ _ => 0) 600 0 900
        { policy := SCHED_FIFO, rt_priority := 50 }).events.any isSetSched =
      false := by
  decide

/-- C2 (amended): in set_cpu_freq the calling task's priority is elevated
iff the new frequency is greater than the old one AND the task is not
already in class SCHED_FIFO; and for a task whose scheduling class is valid
(nonnegative), the task returns with its exact prior class and priority,
even when the clock-set primitive fails. -/
theorem C2_priority_elevation_restore (acpu : Nat → Nat → Int)
    (cur cpu new_freq : Nat) (task : SchedState) (h : 0 ≤ task.policy) :
    ((set_cpu_freq acpu cur cpu new_freq task).events.any isSetSched = true ↔
      (cur < new_freq ∧ task.policy ≠ SCHED_FIFO)) ∧
    (set_cpu_freq acpu cur cpu new_freq task).task = task := by
  unfold set_cpu_freq
  simp only [SCHED_FIFO, EINVAL, MAX_RT_PRIO]
  by_cases h1 : cur < new_freq <;> by_cases h2 : task.policy = 1 <;>
    by_cases h3 : acpu cpu new_freq = 0 <;>
    simp [h1, h2, h3, h, isSetSched]

/-- C2 witness: the amended claim instantiated at a failing clock-set
(result 3), old 600, new 900, task class 0 priority 5. -/
theorem C2_priority_elevation_restore_witness :
    (0 : Int) ≤ ({ policy := 0, rt_priority := 5 } : SchedState).policy ∧
    (((set_cpu_freq (fun _ _ => 3) 600 0 900
        { policy := 0, rt_priority := 5 }).events.any isSetSched = true ↔
      (600 < 900 ∧
        ({ policy := 0, rt_priority := 5 } : SchedState).policy ≠ SCHED_FIFO)) ∧
    (set_cpu_freq (fun _ _ => 3) 600 0 900
        { policy := 0, rt_priority := 5 }).task =
      { policy := 0, rt_priority := 5 }) :=
  ⟨by decide,
   C2_priority_elevation_restore (fun _ _ => 3) 600 0 900
     { policy := 0, rt_priority := 5 } (by decide)⟩

/-! ## Claims about the Cross-Core Dispatcher -/

/-- Concrete collaborator environment used by the witnesses: every core
active, allocation succeeding, table 300/600/900, clock-set succeeding,
worker threads at class 0. -/
def envW : TargetEnv :=
  { cpu_active := fun _ => true, alloc_ok := true,
    table := some [300, 600, 900], acpuclk_set_rate := fun _ _ => 0,
    workerTask := fun _ => { policy := 0, rt_priority := 0 } }

/-- Concrete policy used by the witnesses: core 0 currently at 600. -/
def polW : Policy := { cpu := 0, cur := 600 }

/-- Concrete calling task used by the witnesses: class 0, affinity {0, 1}. -/
def taskW : TaskState :=
  { sched := { policy := 0, rt_priority := 5 }, cpus_allowed := [0, 1] }

/-- Concrete per-core state with every core suspended. -/
def stSusp : Nat → CpuState :=
  fun _ => { device_suspended := true, work_frequency := 0, work_status := 0 }

/-- Concrete per-core state with no core suspended. -/
def stRun : Nat → CpuState :=
  fun _ => { device_suspended := false, work_frequency := 0, work_status := 0 }

/-- C1: when the target core's suspended flag is set, msm_cpufreq_target
never invokes the clock-set primitive, and (provided the call got past the
earlier core-inactive and allocation guards) it fails with -EFAULT, the
DeviceSuspended error. -/
theorem C1_suspended_blocks_target (env : TargetEnv) (pol : Policy)
    (target_freq : Nat) (relation : FreqRelation) (task : TaskState)
    (st : Nat → CpuState) (hs : (st pol.cpu).device_suspended = true) :
    (msm_cpufreq_target env pol target_freq relation task st).events.any
      isClockSet = false ∧
    (env.cpu_active pol.cpu = true → env.alloc_ok = true →
      (msm_cpufreq_target env pol target_freq relation task st).ret = -EFAULT) := by
  unfold msm_cpufreq_target
  by_cases h1 : env.cpu_active pol.cpu = false <;>
    by_cases h2 : env.alloc_ok = false <;>
    simp [h1, h2, hs, isClockSet]

/-- C1 witness: the suspended-core failure at core 0, target 750, with all
earlier guards passing. -/
theorem C1_suspended_blocks_target_witness :
    (stSusp polW.cpu).device_suspended = true ∧
    (msm_cpufreq_target envW polW 750 FreqRelation.roundUp taskW stSusp).events.any
      isClockSet = false ∧
    (msm_cpufreq_target envW polW 750 FreqRelation.roundUp taskW stSusp).ret =
      -EFAULT :=
  ⟨rfl,
   (C1_suspended_blocks_target envW polW 750 FreqRelation.roundUp taskW stSusp rfl).1,
   (C1_suspended_blocks_target envW polW 750 FreqRelation.roundUp taskW stSusp rfl).2
     rfl rfl⟩

/-- C7: when the target core is not active, msm_cpufreq_target fails at once
with -ENODEV (CoreInactive): no mutex acquisition, no resolution, no
dispatch and no clock-set happen (the event trace is empty) and the
per-core state and the calling task are unchanged. -/
theorem C7_inactive_fails_first (env : TargetEnv) (pol : Policy)
    (target_freq : Nat) (relation : FreqRelation) (task : TaskState)
    (st : Nat → CpuState) (h : env.cpu_active pol.cpu = false) :
    (msm_cpufreq_target env pol target_freq relation task st).ret = -ENODEV ∧
    (msm_cpufreq_target env pol target_freq relation task st).events = [] ∧
    (msm_cpufreq_target env pol target_freq relation task st).st = st ∧
    (msm_cpufreq_target env pol target_freq relation task st).task = task.sched := by
  unfold msm_cpufreq_target
  simp [h]

/-- C7 witness: the inactive-core failure at core 0, with core 0 inactive. -/
theorem C7_inactive_fails_first_witness :
    (({ cpu_active := fun _ => false, alloc_ok := true,
        table := some [300, 600, 900], acpuclk_set_rate := fun _ _ => 0,
        workerTask := fun _ => { policy := 0, rt_priority := 0 } } :
      TargetEnv).cpu_active polW.cpu = false) ∧
    (msm_cpufreq_target
      { cpu_active := fun _ => false, alloc_ok := true,
        table := some [300, 600, 900], acpuclk_set_rate := fun _ _ => 0,
        workerTask := fun _ => { policy := 0, rt_priority := 0 } }
      polW 750 FreqRelation.roundUp taskW stRun).ret = -ENODEV :=
  ⟨rfl,
   (C7_inactive_fails_first
     { cpu_active := fun _ => false, alloc_ok := true,
       table := some [300, 600, 900], acpuclk_set_rate := fun _ _ => 0,
       workerTask := fun _ => { policy := 0, rt_priority := 0 } }
     polW 750 FreqRelation.roundUp taskW stRun rfl).1⟩

/-- C9: when the temporary cpumask allocation fails (and the core is
active), msm_cpufreq_target fails with -ENOMEM before taking the suspend
mutex: no event at all is produced (no notification, no dispatch, no
clock-set) and the per-core state and calling task are unchanged. -/
theorem C9_alloc_failure (env : TargetEnv) (pol : Policy) (target_freq : Nat)
    (relation : FreqRelation) (task : TaskState) (st : Nat → CpuState)
    (h1 : env.cpu_active pol.cpu = true) (h2 : env.alloc_ok = false) :
    (msm_cpufreq_target env pol target_freq relation task st).ret = -ENOMEM ∧
    (msm_cpufreq_target env pol target_freq relation task st).events = [] ∧
    (msm_cpufreq_target env pol target_freq relation task st).st = st ∧
    (msm_cpufreq_target env pol target_freq relation task st).task = task.sched := by
  unfold msm_cpufreq_target
  simp [h1, h2]

/-- C9 witness: the allocation failure at core 0 with the core active. -/
theorem C9_alloc_failure_witness :
    (({ cpu_active := fun _ => true, alloc_ok := false,
        table := some [300, 600, 900], acpuclk_set_rate := fun _ _ => 0,
        workerTask := fun _ => { policy := 0, rt_priority := 0 } } :
      TargetEnv).alloc_ok = false) ∧
    (msm_cpufreq_target
      { cpu_active := fun _ => true, alloc_ok := false,
        table := some [300, 600, 900], acpuclk_set_rate := fun _ _ => 0,
        workerTask := fun _ => { policy := 0, rt_priority := 0 } }
      polW 750 FreqRelation.roundUp taskW stRun).ret = -ENOMEM ∧
    (msm_cpufreq_target
      { cpu_active := fun _ => true, alloc_ok := false,
        table := some [300, 600, 900], acpuclk_set_rate := fun _ _ => 0,
        workerTask := fun _ => { policy := 0, rt_priority := 0 } }
      polW 750 FreqRelation.roundUp taskW stRun).events = [] :=
  ⟨rfl,
   (C9_alloc_failure
     { cpu_active := fun _ => true, alloc_ok := false,
       table := some [300, 600, 900], acpuclk_set_rate := fun _ _ => 0,
       workerTask := fun _ => { policy := 0, rt_priority := 0 } }
     polW 750 FreqRelation.roundUp taskW stRun rfl rfl).1,
   (C9_alloc_failure
     { cpu_active := fun _ => true, alloc_ok := false,
       table := some [300, 600, 900], acpuclk_set_rate := fun _ _ => 0,
       workerTask := fun _ => { policy := 0, rt_priority := 0 } }
     polW 750 FreqRelation.roundUp taskW stRun rfl rfl).2.1⟩

/-- C3: once the operating point is resolved, msm_cpufreq_target runs the
Transition Executor inline and returns its result directly when the
caller's affinity is exactly the singleton of the target core; otherwise it
cancels-and-joins any outstanding work item, resets the completion, queues
a work item running the Executor on the target core, waits for the
completion, and returns the status the Executor left in the core's
dispatch state. -/
theorem C3_dispatch_paths (env : TargetEnv) (pol : Policy) (target_freq : Nat)
    (relation : FreqRelation) (task : TaskState) (st : Nat → CpuState)
    (t : List Nat) (freq : Nat)
    (ha : env.cpu_active pol.cpu = true) (hb : env.alloc_ok = true)
    (hs : (st pol.cpu).device_suspended = false)
    (ht : env.table = some t)
    (hr : cpufreq_table_resolve t target_freq relation = some freq) :
    (singletonAffinity task.cpus_allowed pol.cpu = true →
      (msm_cpufreq_target env pol target_freq relation task st).ret =
        (set_cpu_freq env.acpuclk_set_rate pol.cur pol.cpu freq task.sched).ret ∧
      (msm_cpufreq_target env pol target_freq relation task st).events =
        Event.lockMutex pol.cpu ::
          (set_cpu_freq env.acpuclk_set_rate pol.cur pol.cpu freq task.sched).events ++
          [Event.unlockMutex pol.cpu]) ∧
    (singletonAffinity task.cpus_allowed pol.cpu = false →
      (msm_cpufreq_target env pol target_freq relation task st).events =
        Event.lockMutex pol.cpu :: Event.cancelWorkSync pol.cpu ::
          Event.initCompletion pol.cpu :: Event.queueWorkOn pol.cpu ::
          (set_cpu_freq env.acpuclk_set_rate pol.cur pol.cpu freq
            (env.workerTask pol.cpu)).events ++
          [Event.completeSignal pol.cpu, Event.waitCompletion pol.cpu,
           Event.unlockMutex pol.cpu] ∧
      (msm_cpufreq_target env pol target_freq relation task st).ret =
        ((msm_cpufreq_target env pol target_freq relation task st).st
          pol.cpu).work_status ∧
      ((msm_cpufreq_target env pol target_freq relation task st).st
          pol.cpu).work_status =
        (set_cpu_freq env.acpuclk_set_rate pol.cur pol.cpu freq
          (env.workerTask pol.cpu)).ret) := by
  unfold msm_cpufreq_target
  by_cases hm : singletonAffinity task.cpus_allowed pol.cpu <;>
    simp [ha, hb, hs, ht, hr, hm, updState]

/-- C3 witness: the remote path at core 0, target 750 rounded up to 900,
caller affinity {0, 1}. -/
theorem C3_dispatch_paths_witness :
    singletonAffinity taskW.cpus_allowed polW.cpu = false ∧
    (msm_cpufreq_target envW polW 750 FreqRelation.roundUp taskW stRun).ret =
      ((msm_cpufreq_target envW polW 750 FreqRelation.roundUp taskW stRun).st
        polW.cpu).work_status :=
  ⟨by decide,
   ((C3_dispatch_paths envW polW 750 FreqRelation.roundUp taskW stRun
       [300, 600, 900] 900 rfl rfl rfl rfl (by decide)).2 (by decide)).2.1⟩

/-! ## Claims about the Initializer -/

/-- Characterization of an init run that settles on the frequency f: when
the hardware frequency already equals f, init succeeds with no clock-set
and records f; otherwise init issues exactly one normalizing clock-set to
f, returns that clock-set's result, and on success records f as current. -/
def initChoosesFreq (env : InitEnv) (cpu f : Nat) : Prop :=
  (env.acpuclk_get_rate cpu = f →
    (msm_cpufreq_init env cpu).ret = 0 ∧
    (msm_cpufreq_init env cpu).cur = some f ∧
    (msm_cpufreq_init env cpu).events = []) ∧
  (env.acpuclk_get_rate cpu ≠ f →
    (msm_cpufreq_init env cpu).events = [Event.clockSet cpu f] ∧
    (msm_cpufreq_init env cpu).ret = env.acpuclk_set_rate cpu f ∧
    ((msm_cpufreq_init env cpu).ret = 0 →
      (msm_cpufreq_init env cpu).cur = some f))

/-- C4 counterexample: with table 300/600/900 and hardware frequency 750,
the round-up relation succeeds (at 900), yet msm_cpufreq_init normalizes to
600, the round-down result — so init does not resolve with round-up first
as the claim states. -/
theorem C4_counterexample :
    cpufreq_table_resolve [300, 600, 900] 750 FreqRelation.roundUp = some 900 ∧
    (msm_cpufreq_init
      { table := some [300, 600, 900], acpuclk_get_rate := fun _ => 750,
        acpuclk_set_rate := fun _ _ => 0, acpuclk_get_switch_time := 10,
        cpu_is_msm8625 := false } 0).events = [Event.clockSet 0 600] ∧
    (msm_cpufreq_init
      { table := some [300, 600, 900], acpuclk_get_rate := fun _ => 750,
        acpuclk_set_rate := fun _ _ => 0, acpuclk_get_switch_time := 10,
        cpu_is_msm8625 := false } 0).cur = some 600 := by
  decide

/-- C4 (amended): at initialization a current hardware frequency that does
not exactly match a table entry is normalized by first resolving with the
round-DOWN relation and only on its failure falling back to the round-UP
relation; only when both relations fail does init fail with -EINVAL
(InvalidTarget), issuing no clock-set. -/
theorem C4_init_resolution_order (env : InitEnv) (cpu : Nat) (t : List Nat)
    (ht : env.table = some t) :
    (∀ f, cpufreq_table_resolve t (env.acpuclk_get_rate cpu)
        FreqRelation.roundDown = some f → initChoosesFreq env cpu f) ∧
    (cpufreq_table_resolve t (env.acpuclk_get_rate cpu)
        FreqRelation.roundDown = none →
      ∀ f, cpufreq_table_resolve t (env.acpuclk_get_rate cpu)
          FreqRelation.roundUp = some f → initChoosesFreq env cpu f) ∧
    (cpufreq_table_resolve t (env.acpuclk_get_rate cpu)
        FreqRelation.roundDown = none →
      cpufreq_table_resolve t (env.acpuclk_get_rate cpu)
        FreqRelation.roundUp = none →
      (msm_cpufreq_init env cpu).ret = -EINVAL ∧
      (msm_cpufreq_init env cpu).events = []) := by
  unfold initChoosesFreq msm_cpufreq_init
  simp only [CPUFREQ_RELATION_H, CPUFREQ_RELATION_L, ht]
  refine ⟨?_, ?_, ?_⟩
  · intro f hf
    by_cases hc : env.acpuclk_get_rate cpu = f <;>
      by_cases hz : env.acpuclk_set_rate cpu f = 0 <;>
      simp only [hf, Option.orElse] <;>
      simp [hc, hz]
  · intro hd f hf
    by_cases hc : env.acpuclk_get_rate cpu = f <;>
      by_cases hz : env.acpuclk_set_rate cpu f = 0 <;>
      simp only [hd, hf, Option.orElse] <;>
      simp [hc, hz]
  · intro hd hu
    simp only [hd, hu, Option.orElse]
    simp

/-- C4 witness: the amended order at table 300/600/900 and hardware
frequency 750, where round-down resolves to 600 and init normalizes there. -/
theorem C4_init_resolution_order_witness :
    cpufreq_table_resolve [300, 600, 900] 750 FreqRelation.roundDown = some 600 ∧
    initChoosesFreq
      { table := some [300, 600, 900], acpuclk_get_rate := fun _ => 750,
        acpuclk_set_rate := fun _ _ => 0, acpuclk_get_switch_time := 10,
        cpu_is_msm8625 := false } 0 600 :=
  ⟨by decide,
   (C4_init_resolution_order
     { table := some [300, 600, 900], acpuclk_get_rate := fun _ => 750,
       acpuclk_set_rate := fun _ _ => 0, acpuclk_get_switch_time := 10,
       cpu_is_msm8625 := false } 0 [300, 600, 900] rfl).1 600 (by decide)⟩

/-- C8: msm_cpufreq_init fails with -ENODEV (NoTableAvailable) when no
frequency table exists for the core; when the resolved table frequency
differs from the hardware-reported one, init issues a normalizing clock-set
and returns that clock-set's result; and whenever init succeeds the
recorded current frequency equals the resolved (or already-matching) table
frequency. -/
theorem C8_init_table_and_normalization (env : InitEnv) (cpu : Nat) :
    (env.table = none → (msm_cpufreq_init env cpu).ret = -ENODEV) ∧
    (∀ t f, env.table = some t →
      (cpufreq_table_resolve t (env.acpuclk_get_rate cpu)
          CPUFREQ_RELATION_H).orElse
        (fun _ => cpufreq_table_resolve t (env.acpuclk_get_rate cpu)
          CPUFREQ_RELATION_L) = some f →
      ((env.acpuclk_get_rate cpu ≠ f →
        (msm_cpufreq_init env cpu).ret = env.acpuclk_set_rate cpu f) ∧
       ((msm_cpufreq_init env cpu).ret = 0 →
        (msm_cpufreq_init env cpu).cur = some f))) := by
  refine ⟨?_, ?_⟩
  · intro h
    simp [msm_cpufreq_init, h]
  · intro t f ht hf
    unfold msm_cpufreq_init
    by_cases hc : env.acpuclk_get_rate cpu = f <;>
      by_cases hz : env.acpuclk_set_rate cpu f = 0 <;>
      simp only [ht, hf] <;>
      simp [hc, hz]

/-- C8 witness: a missing table fails with -ENODEV, and a failing
normalizing clock-set (result -5) is propagated as init's result at table
300/600/900, hardware frequency 750 resolved to 600. -/
theorem C8_init_table_and_normalization_witness :
    (msm_cpufreq_init
      { table := none, acpuclk_get_rate := fun _ => 750,
        acpuclk_set_rate := fun _ _ => -5, acpuclk_get_switch_time := 10,
        cpu_is_msm8625 := false } 0).ret = -ENODEV ∧
    (msm_cpufreq_init
      { table := some [300, 600, 900], acpuclk_get_rate := fun _ => 750,
        acpuclk_set_rate := fun _ _ => -5, acpuclk_get_switch_time := 10,
        cpu_is_msm8625 := false } 0).ret = -5 := by
  refine ⟨(C8_init_table_and_normalization
    { table := none, acpuclk_get_rate := fun _ => 750,
      acpuclk_set_rate := fun _ _ => -5, acpuclk_get_switch_time := 10,
      cpu_is_msm8625 := false } 0).1 rfl, ?_⟩
  have h := ((C8_init_table_and_normalization
    { table := some [300, 600, 900], acpuclk_get_rate := fun _ => 750,
      acpuclk_set_rate := fun _ _ => -5, acpuclk_get_switch_time := 10,
      cpu_is_msm8625 := false } 0).2 [300, 600, 900] 600 rfl (by decide)).1
    (by decide)
  exact h

/-! ## Claims about the Lifecycle Controller -/

/-- C6 counterexample: on a CPU_ONLINE event the hotplug callback writes
core 0's suspended flag (clearing it) while acquiring no suspend mutex at
all during the invocation — so not every Lifecycle Controller write of the
flag is performed under the core's suspend mutex. -/
theorem C6_counterexample :
    (msm_cpufreq_cpu_callback CPU_ONLINE 0 (fun _ => true)).events.any
      isSetSuspended = true ∧
    (msm_cpufreq_cpu_callback CPU_ONLINE 0 (fun _ => true)).events.any
      isLockMutex = false := by
  decide

/-- C6 (amended): only the core-down-prepare write of the suspended flag is
performed under the core's suspend mutex; the core-online and
core-down-failed writes of the hotplug callback, and the writes of the
system-wide suspend and resume handlers, are performed without taking any
suspend mutex. -/
theorem C6_suspend_flag_mutex (action cpu : Nat) (st : Nat → Bool) (nr : Nat)
    (st2 : Nat → Bool) :
    (action = CPU_DOWN_PREPARE ∨ action = CPU_DOWN_PREPARE_FROZEN →
      (msm_cpufreq_cpu_callback action cpu st).events =
        [Event.lockMutex cpu, Event.setSuspended cpu true,
         Event.unlockMutex cpu]) ∧
    (action = CPU_ONLINE ∨ action = CPU_ONLINE_FROZEN ∨
        action = CPU_DOWN_FAILED ∨ action = CPU_DOWN_FAILED_FROZEN →
      (msm_cpufreq_cpu_callback action cpu st).events =
        [Event.setSuspended cpu false]) ∧
    (msm_cpufreq_suspend nr st2).events.any isLockMutex = false ∧
    (msm_cpufreq_resume nr st2).events.any isLockMutex = false := by
  refine ⟨?_, ?_, ?_, ?_⟩
  · intro h
    rcases h with h | h <;> subst h <;>
      simp [msm_cpufreq_cpu_callback, CPU_ONLINE, CPU_ONLINE_FROZEN,
        CPU_DOWN_PREPARE, CPU_DOWN_PREPARE_FROZEN]
  · intro h
    rcases h with h | h | h | h <;> subst h <;>
      simp [msm_cpufreq_cpu_callback, CPU_ONLINE, CPU_ONLINE_FROZEN,
        CPU_DOWN_PREPARE, CPU_DOWN_PREPARE_FROZEN, CPU_DOWN_FAILED,
        CPU_DOWN_FAILED_FROZEN]
  · simp [msm_cpufreq_suspend, isLockMutex]
  · simp [msm_cpufreq_resume, isLockMutex]

/-- C6 witness: the amended claim at a CPU_DOWN_PREPARE event on core 0 and
two possible cores for the global handlers. -/
theorem C6_suspend_flag_mutex_witness :
    (msm_cpufreq_cpu_callback CPU_DOWN_PREPARE 0 (fun _ => false)).events =
      [Event.lockMutex 0, Event.setSuspended 0 true, Event.unlockMutex 0] ∧
    (msm_cpufreq_suspend 2 (fun _ => false)).events.any isLockMutex = false :=
  ⟨(C6_suspend_flag_mutex CPU_DOWN_PREPARE 0 (fun _ => false) 2
      (fun _ => false)).1 (Or.inl rfl),
   (C6_suspend_flag_mutex CPU_DOWN_PREPARE 0 (fun _ => false) 2
      (fun _ => false)).2.2.1⟩

/-- C10: for every hotplug action other than core-online, core-down-prepare
and core-down-failed (and their frozen variants) the hotplug callback
leaves every core's suspended flag unchanged, and for every action it
returns NOTIFY_OK. -/
theorem C10_callback_frame (action cpu : Nat) (st : Nat → Bool) :
    ((action ≠ CPU_ONLINE ∧ action ≠ CPU_ONLINE_FROZEN ∧
      action ≠ CPU_DOWN_PREPARE ∧ action ≠ CPU_DOWN_PREPARE_FROZEN ∧
      action ≠ CPU_DOWN_FAILED ∧ action ≠ CPU_DOWN_FAILED_FROZEN) →
      (msm_cpufreq_cpu_callback action cpu st).st = st) ∧
    (msm_cpufreq_cpu_callback action cpu st).ret = NOTIFY_OK := by
  refine ⟨?_, ?_⟩
  · intro h
    obtain ⟨h1, h2, h3, h4, h5, h6⟩ := h
    simp [msm_cpufreq_cpu_callback, h1, h2, h3, h4, h5, h6]
  · unfold msm_cpufreq_cpu_callback
    split_ifs <;> rfl

/-- C10 witness: the frame property at action 7 (CPU_DEAD, not one of the
six handled actions) on core 0. -/
theorem C10_callback_frame_witness :
    ((7 : Nat) ≠ CPU_ONLINE ∧ (7 : Nat) ≠ CPU_ONLINE_FROZEN ∧
      (7 : Nat) ≠ CPU_DOWN_PREPARE ∧ (7 : Nat) ≠ CPU_DOWN_PREPARE_FROZEN ∧
      (7 : Nat) ≠ CPU_DOWN_FAILED ∧ (7 : Nat) ≠ CPU_DOWN_FAILED_FROZEN) ∧
    (msm_cpufreq_cpu_callback 7 0 (fun _ => false)).st = (fun _ => false) ∧
    (msm_cpufreq_cpu_callback 7 0 (fun _ => false)).ret = NOTIFY_OK :=
  ⟨by decide,
   (C10_callback_frame 7 0 (fun _ => false)).1 (by decide),
   (C10_callback_frame 7 0 (fun _ => false)).2⟩
